import Mathlib

/-!
Verification of the NeRFRenderCore `common.h` header.

The header defines three behavior-carrying macros:

* `CHECK_DATA(varname, data_type, data_ptr, data_size, stream)` — the device
  snapshot utility: declares `std::vector<data_type> varname(data_size)`
  (value-initialized), enqueues an asynchronous device-to-host copy of
  `data_size` elements wrapped in `CUDA_CHECK_THROW`, then calls
  `cudaStreamSynchronize(stream)` discarding its return status.
* `READWRITE_PROPERTY(type, name, default)` — declares a private field
  `name = default` plus public `get_name()` and `set_name(value)`.
* `READONLY_PROPERTY(type, name, default)` — declares a private field
  `name = default` plus public `get_name()` only.

The CUDA runtime is an external collaborator; its three primitives
(async copy enqueue, stream synchronize, check-or-throw) are modelled below
as a small environment, following the spec's description of the external
interface.  The macro bodies themselves are translated line by line.
-/

namespace NRC

/-- Status returned by a CUDA runtime primitive.  Everything other than
`success` is collapsed into `error` — the macro only distinguishes
success from non-success via `CUDA_CHECK_THROW`. -/
inductive cudaError where
  | success
  | error
deriving DecidableEq, Repr

/-- An operation sitting in a stream's queue.  `copy n` is the snapshot's
own device-to-host transfer of `n` elements; `other` is an operation
enqueued earlier by unrelated code.  Earlier operations' effects on device
memory outside the snapshot buffer are irrelevant here, and same-buffer
writers racing with the read are a caller responsibility per the spec's
shared-resource policy, so `other` is opaque. -/
inductive StreamOp where
  | other
  | copy (n : Nat)
deriving DecidableEq, Repr

/-- The observable state of a CUDA stream: its queue of pending operations
and whether a prior asynchronous failure is latent on it (a sticky error
that `cudaStreamSynchronize` will report). -/
structure StreamState where
  pending : List StreamOp
  failed : Bool
deriving DecidableEq, Repr

/-- The environment a single `CHECK_DATA` invocation runs in: the contents
of the device buffer `data_ptr` points to, the state of `stream`, and
whether the runtime accepts the enqueue of the copy (`cudaMemcpyAsync`
returns non-success on an invalid handle, direction mismatch, etc.). -/
structure SnapshotEnv (α : Type) where
  device : List α
  stream : StreamState
  enqueueOk : Bool
deriving DecidableEq, Repr

/-- The first `n` elements of the device buffer — what the copy deposits in
the host vector when it executes.  Reads past the end of the buffer are out
of contract; the model gives them the value-initialized value. -/
def devSlice [Inhabited α] (device : List α) (n : Nat) : List α :=
  (List.range n).map (fun i => device.getD i default)

/-- Executing one pending stream operation against the host vector.  An
unrelated operation leaves the snapshot's host vector alone; the copy
overwrites the whole vector (it was sized `n` and the transfer is of `n`
elements). -/
def runOp [Inhabited α] (device : List α) (host : List α) : StreamOp → List α
  | .other => host
  | .copy n => devSlice device n

/-- Model of `cudaMemcpyAsync(dst, src, bytes, cudaMemcpyDeviceToHost,
stream)`: on success the copy is appended to the stream's queue; on failure
nothing is enqueued and a non-success status is returned. -/
def cudaMemcpyAsync (enqueueOk : Bool) (n : Nat) (s : StreamState) :
    cudaError × StreamState :=
  if enqueueOk then (.success, ⟨s.pending ++ [.copy n], s.failed⟩)
  else (.error, s)

/-- Model of `cudaStreamSynchronize(stream)`: blocks until the stream's
queue drains.  If a prior asynchronous failure is latent, the queued
operations are abandoned (the sticky error poisons them), the host vector
is left as it was, and the failure is reported in the return status;
otherwise every pending operation executes in issue order and success is
returned.  Either way nothing remains pending afterwards. -/
def cudaStreamSynchronize [Inhabited α] (device : List α) (host : List α)
    (s : StreamState) : List α × StreamState × cudaError :=
  if s.failed then (host, ⟨[], true⟩, .error)
  else (s.pending.foldl (runOp device) host, ⟨[], false⟩, .success)

/-- The exception thrown by `CUDA_CHECK_THROW` when the primitive it wraps
returns non-success; it aborts the enclosing operation, carrying the name
of the failing primitive. -/
structure DeviceOperationError where
  failingPrimitive : String
deriving DecidableEq, Repr

/-- What the three statements of `CHECK_DATA` leave behind when the macro
runs to completion: the host vector `varname`, the stream's state, and the
return status of `cudaStreamSynchronize` — which the macro discards (line
13 does not wrap the call in `CUDA_CHECK_THROW`). -/
structure SnapshotResult (α : Type) where
  varname : List α
  stream : StreamState
  syncStatus : cudaError
deriving DecidableEq, Repr

/-- Line-by-line translation of `CHECK_DATA(varname, data_type, data_ptr,
data_size, stream)`:

* `std::vector<data_type> varname(data_size);` — `data_size` elements,
  value-initialized;
* `CUDA_CHECK_THROW(cudaMemcpyAsync(varname.data(), data_ptr, data_size *
  sizeof(data_type), cudaMemcpyDeviceToHost, stream));` — throws
  `DeviceOperationError` when the status is non-success;
* `cudaStreamSynchronize(stream);` — the status is discarded. -/
def CHECK_DATA [Inhabited α] (env : SnapshotEnv α) (data_size : Nat) :
    Except DeviceOperationError (SnapshotResult α) :=
  let varname : List α := List.replicate data_size default
  let step := cudaMemcpyAsync env.enqueueOk data_size env.stream
  if step.1 = .success then
    let fin := cudaStreamSynchronize env.device varname step.2
    .ok ⟨fin.1, fin.2.1, fin.2.2⟩
  else
    .error ⟨"cudaMemcpyAsync"⟩

/-- Whether a `CHECK_DATA` invocation aborted by throwing (the exception
propagates; no vector is returned to the caller). -/
def throws (r : Except DeviceOperationError (SnapshotResult α)) : Bool :=
  match r with
  | .error _ => true
  | .ok _ => false

/-- Whether a `CHECK_DATA` invocation returned normally to the caller. -/
def returnsNormally (r : Except DeviceOperationError (SnapshotResult α)) : Bool :=
  match r with
  | .error _ => false
  | .ok _ => true

/-- Observable events of one `CHECK_DATA` invocation, in program order, for
stating sequencing properties (what happens before what). -/
inductive SnapshotEvent (α : Type) where
  | allocHost (contents : List α)
  | enqueueCopy
  | throwDeviceOperationError
  | syncStream
deriving DecidableEq, Repr

/-- The event trace of `CHECK_DATA`: the vector declaration always runs
first; then either the enqueue is accepted and the stream is synchronized,
or `CUDA_CHECK_THROW` throws. -/
def CHECK_DATA_trace [Inhabited α] (env : SnapshotEnv α) (data_size : Nat) :
    List (SnapshotEvent α) :=
  let varname : List α := List.replicate data_size default
  if env.enqueueOk then
    [.allocHost varname, .enqueueCopy, .syncStream]
  else
    [.allocHost varname, .throwDeviceOperationError]

/-- Sanity link between the two views of the macro: the trace ends in a
throw exactly when the `Except`-valued translation reports an error. -/
theorem trace_throw_iff_isError [Inhabited α] (env : SnapshotEnv α) (n : Nat) :
    (SnapshotEvent.throwDeviceOperationError ∈ CHECK_DATA_trace env n)
      ↔ throws (CHECK_DATA env n) = true := by
  unfold CHECK_DATA_trace CHECK_DATA cudaMemcpyAsync
  cases h : env.enqueueOk <;> simp [h, throws]

/-!
Model of the accessor-generator macros.  `READWRITE_PROPERTY(type, name,
default)` expands, inside a class body, to a private field `name` with
initializer `default` plus public member functions `get_name()` (returns
the field by copy, `const`) and `set_name(value)` (assigns `value` to the
field, returns void).  `READONLY_PROPERTY` is the same without the setter.

The macros are schematic in the enclosing class; `PropClass` below is a
representative class over arbitrary field types and defaults:

    class PropClass {
      READWRITE_PROPERTY(τa, a, da)
      READWRITE_PROPERTY(τb, b, db)
      READONLY_PROPERTY(τr, r, dr)
    };

Member functions are embedded in state-passing style: a C++ method call
`obj.m(args)` becomes a Lean function taking the object and returning the
pair (return value, object after the call), so that absence of side
effects is a provable statement rather than a convention.
-/

/-- The fields the three macro invocations declare (all private). -/
structure PropClass (τa τb τr : Type) where
  a : τa
  b : τb
  r : τr
deriving DecidableEq, Repr

/-- Construction of a `PropClass` object: each field takes its declared
default initializer (`type name = default;` in the macro expansion). -/
def PropClass.construct (da : τa) (db : τb) (dr : τr) : PropClass τa τb τr :=
  ⟨da, db, dr⟩

/-- `type get_a() const { return a; }` — generated by
`READWRITE_PROPERTY(τa, a, da)`. -/
def PropClass.get_a (self : PropClass τa τb τr) : τa × PropClass τa τb τr :=
  (self.a, self)

/-- `void set_a(type value) { a = value; }` — generated by
`READWRITE_PROPERTY(τa, a, da)`. -/
def PropClass.set_a (self : PropClass τa τb τr) (value : τa) :
    Unit × PropClass τa τb τr :=
  ((), { self with a := value })

/-- `type get_b() const { return b; }` — generated by
`READWRITE_PROPERTY(τb, b, db)`. -/
def PropClass.get_b (self : PropClass τa τb τr) : τb × PropClass τa τb τr :=
  (self.b, self)

/-- `void set_b(type value) { b = value; }` — generated by
`READWRITE_PROPERTY(τb, b, db)`. -/
def PropClass.set_b (self : PropClass τa τb τr) (value : τb) :
    Unit × PropClass τa τb τr :=
  ((), { self with b := value })

/-- `type get_r() const { return r; }` — generated by
`READONLY_PROPERTY(τr, r, dr)`; the read-only variant generates no setter,
so this is the only member function touching `r`. -/
def PropClass.get_r (self : PropClass τa τb τr) : τr × PropClass τa τb τr :=
  (self.r, self)

/-- The public interface of `PropClass`: exactly the member functions the
macro expansions mark `public:`.  There is no call for mutating `r` — the
read-only variant exposes no such symbol. -/
inductive PublicCall (τa τb : Type) where
  | call_get_a
  | call_set_a (v : τa)
  | call_get_b
  | call_set_b (v : τb)
  | call_get_r
deriving DecidableEq, Repr

/-- The state of the object after one public call (return values
discarded). -/
def PropClass.run (o : PropClass τa τb τr) : PublicCall τa τb → PropClass τa τb τr
  | .call_get_a => (o.get_a).2
  | .call_set_a v => (o.set_a v).2
  | .call_get_b => (o.get_b).2
  | .call_set_b v => (o.set_b v).2
  | .call_get_r => (o.get_r).2

/-- The state of the object after a sequence of public calls. -/
def PropClass.runAll (o : PropClass τa τb τr) (cs : List (PublicCall τa τb)) :
    PropClass τa τb τr :=
  cs.foldl PropClass.run o

/-- No public call changes the read-only field `r`. -/
theorem PropClass.run_preserves_r (o : PropClass τa τb τr) (c : PublicCall τa τb) :
    (o.run c).r = o.r := by
  cases c <;> rfl

/-- No sequence of public calls changes the read-only field `r`. -/
theorem PropClass.runAll_preserves_r (o : PropClass τa τb τr)
    (cs : List (PublicCall τa τb)) : (o.runAll cs).r = o.r := by
  induction cs generalizing o with
  | nil => rfl
  | cons c cs ih =>
    have hstep : o.runAll (c :: cs) = (o.run c).runAll cs := rfl
    rw [hstep, ih, PropClass.run_preserves_r]

/-!  Characterization of `CHECK_DATA` in its three cases.  -/

/-- The slice the copy deposits has exactly `n` elements. -/
theorem devSlice_length [Inhabited α] (d : List α) (n : Nat) :
    (devSlice d n).length = n := by
  simp [devSlice]

/-- For indices inside the copy, the deposited element is the device
buffer's element. -/
theorem devSlice_getD [Inhabited α] (d : List α) {i n : Nat} (hi : i < n) :
    (devSlice d n).getD i default = d.getD i default := by
  have hl : i < (devSlice d n).length := by rw [devSlice_length]; exact hi
  rw [List.getD_eq_getElem _ _ hl]
  simp [devSlice]

/-- Copying exactly the buffer's length reproduces the buffer. -/
theorem devSlice_self [Inhabited α] (d : List α) : devSlice d d.length = d := by
  apply List.ext_getElem
  · exact devSlice_length d d.length
  · intro i h1 h2
    rw [← List.getD_eq_getElem (devSlice d d.length) default h1,
      ← List.getD_eq_getElem d default h2]
    exact devSlice_getD d h2

/-- Healthy path: enqueue accepted and no latent failure — the macro
returns the device slice, the queue fully drained, sync reporting
success. -/
theorem CHECK_DATA_ok [Inhabited α] (env : SnapshotEnv α) (n : Nat)
    (h1 : env.enqueueOk = true) (h2 : env.stream.failed = false) :
    CHECK_DATA env n = .ok ⟨devSlice env.device n, ⟨[], false⟩, .success⟩ := by
  unfold CHECK_DATA cudaMemcpyAsync cudaStreamSynchronize
  simp only [h1, if_true, h2, if_false, ite_true, ite_false, reduceIte]
  rw [List.foldl_append]
  rfl

/-- Enqueue refused: `CUDA_CHECK_THROW` throws and nothing else runs. -/
theorem CHECK_DATA_throw [Inhabited α] (env : SnapshotEnv α) (n : Nat)
    (h1 : env.enqueueOk = false) :
    CHECK_DATA env n = .error ⟨"cudaMemcpyAsync"⟩ := by
  unfold CHECK_DATA cudaMemcpyAsync
  simp [h1]

/-- Latent asynchronous failure: the enqueue itself succeeds, the
synchronize reports the failure — but the macro discards that status and
returns normally, with the vector still value-initialized. -/
theorem CHECK_DATA_latent_failure [Inhabited α] (env : SnapshotEnv α) (n : Nat)
    (h1 : env.enqueueOk = true) (h2 : env.stream.failed = true) :
    CHECK_DATA env n =
      .ok ⟨List.replicate n default, ⟨[], true⟩, .error⟩ := by
  unfold CHECK_DATA cudaMemcpyAsync cudaStreamSynchronize
  simp [h1, h2]

/-- C1 counterexample: the claim quantifies over every stream and asserts
that whenever `snapshot` returns a sequence, its `i`-th element equals
`B[i]`.  On a stream carrying a latent asynchronous failure the copy never
executes, the discarded `cudaStreamSynchronize` status (line 13) hides the
failure, and the macro returns normally with the vector still
value-initialized: device `[4, 9]` yields host `[0, 0]`. -/
theorem snapshot_contents_fail_on_latent_failure_cex :
    ¬ ∀ (env : SnapshotEnv Nat) (n : Nat) (r : SnapshotResult Nat),
        env.device.length = n → CHECK_DATA env n = .ok r →
        r.varname.length = n ∧
        ∀ i, i < n → r.varname.getD i 0 = env.device.getD i 0 := by
  intro h
  have h49 := (h ⟨[4, 9], ⟨[], true⟩, true⟩ 2 ⟨[0, 0], ⟨[], true⟩, .error⟩
    rfl rfl).2 0 (by decide)
  exact absurd h49 (by decide)

/-- C1 amended: for a device buffer holding `N` elements and a stream that
carries no latent asynchronous failure, when `snapshot` can enqueue its
copy, `CHECK_DATA` returns normally with a host vector of length exactly
`N` whose `i`-th element equals the device buffer's `i`-th element, for
every `i < N`; indeed the vector equals the whole buffer. -/
theorem snapshot_returns_buffer_contents [Inhabited α] (env : SnapshotEnv α)
    (n : Nat) (h1 : env.enqueueOk = true) (h2 : env.stream.failed = false)
    (hN : env.device.length = n) :
    returnsNormally (CHECK_DATA env n) = true ∧
    ∀ r, CHECK_DATA env n = .ok r →
      r.varname.length = n ∧
      (∀ i, i < n → r.varname.getD i default = env.device.getD i default) ∧
      r.varname = env.device := by
  rw [CHECK_DATA_ok env n h1 h2]
  refine ⟨rfl, ?_⟩
  intro r hr
  injection hr with hr
  subst hr
  refine ⟨devSlice_length _ _, fun i hi => devSlice_getD _ hi, ?_⟩
  rw [← hN]
  exact devSlice_self env.device

/-- C1 amended witness at a concrete environment. -/
theorem snapshot_returns_buffer_contents_witness :
    returnsNormally (CHECK_DATA (⟨[3, 5], ⟨[.other], false⟩, true⟩ :
        SnapshotEnv Nat) 2) = true ∧
    ∀ r, CHECK_DATA (⟨[3, 5], ⟨[.other], false⟩, true⟩ : SnapshotEnv Nat) 2
        = .ok r →
      r.varname.length = 2 ∧
      (∀ i, i < 2 → r.varname.getD i default = [3, 5].getD i default) ∧
      r.varname = [3, 5] :=
  snapshot_returns_buffer_contents ⟨[3, 5], ⟨[.other], false⟩, true⟩ 2
    rfl rfl rfl

/-- C2 counterexample: the claim says `CHECK_DATA` fails fatally in
exactly two situations — enqueue failure, or stream synchronization
reporting a prior asynchronous failure.  The macro does not wrap
`cudaStreamSynchronize` in `CUDA_CHECK_THROW` (its status is discarded),
so with a latent failure on the stream (`failed = true`) and a successful
enqueue it still returns normally: the claimed equivalence is false. -/
theorem snapshot_sync_failure_not_fatal_cex :
    ¬ ∀ (env : SnapshotEnv Nat) (n : Nat),
        throws (CHECK_DATA env n) = (!env.enqueueOk || env.stream.failed) := by
  intro h
  exact absurd (h ⟨[7], ⟨[], true⟩, true⟩ 1) (by decide)

/-- C2 amended: `CHECK_DATA` throws a fatal `DeviceOperationError` in
exactly one situation — the copy cannot be enqueued.  A prior asynchronous
failure is reported by `cudaStreamSynchronize`, but the macro discards
that status and returns normally anyway. -/
theorem snapshot_throws_iff_enqueue_fails [Inhabited α] (env : SnapshotEnv α)
    (n : Nat) :
    throws (CHECK_DATA env n) = !env.enqueueOk ∧
    (env.enqueueOk = true → env.stream.failed = true →
      ∀ r, CHECK_DATA env n = .ok r → r.syncStatus = .error) := by
  constructor
  · cases h1 : env.enqueueOk
    · rw [CHECK_DATA_throw env n h1]; rfl
    · cases h2 : env.stream.failed
      · rw [CHECK_DATA_ok env n h1 h2]; rfl
      · rw [CHECK_DATA_latent_failure env n h1 h2]; rfl
  · intro h1 h2 r hr
    rw [CHECK_DATA_latent_failure env n h1 h2] at hr
    injection hr with hr
    subst hr
    rfl

/-- C2 amended witness at a concrete environment. -/
theorem snapshot_throws_iff_enqueue_fails_witness :
    throws (CHECK_DATA (⟨[7], ⟨[], true⟩, true⟩ : SnapshotEnv Nat) 1)
        = !true ∧
    (true = true → true = true →
      ∀ r, CHECK_DATA (⟨[7], ⟨[], true⟩, true⟩ : SnapshotEnv Nat) 1 = .ok r →
        r.syncStatus = .error) :=
  snapshot_throws_iff_enqueue_fails ⟨[7], ⟨[], true⟩, true⟩ 1

/-- C3 counterexample: the claim says a caller never observes a result not
populated from the device buffer.  With a latent asynchronous failure on
the stream the copy never executes, the discarded sync status hides the
failure, and the macro returns a vector of value-initialized elements:
here device holds `[7]` but the returned vector is `[0]`. -/
theorem snapshot_can_return_unpopulated_cex :
    ¬ ∀ (env : SnapshotEnv Nat) (n : Nat) (r : SnapshotResult Nat),
        CHECK_DATA env n = .ok r →
        ∀ i, i < n → r.varname.getD i 0 = env.device.getD i 0 := by
  intro h
  have h7 := h ⟨[7], ⟨[], true⟩, true⟩ 1 ⟨[0], ⟨[], true⟩, .error⟩ rfl 0
    (by decide)
  exact absurd h7 (by decide)

/-- C3 amended: provided no prior asynchronous failure is latent on the
stream, the caller either receives the fully populated snapshot (every
element from the device buffer) or the macro throws and never returns
normally; with a latent failure, the macro returns normally with the
vector still value-initialized. -/
theorem snapshot_valid_unless_latent_failure [Inhabited α]
    (env : SnapshotEnv α) (n : Nat) (h2 : env.stream.failed = false)
    (hN : env.device.length = n) :
    ∀ r, CHECK_DATA env n = .ok r →
      r.varname.length = n ∧ r.varname = env.device := by
  intro r hr
  cases h1 : env.enqueueOk
  · rw [CHECK_DATA_throw env n h1] at hr
    exact absurd hr (by simp)
  · rw [CHECK_DATA_ok env n h1 h2] at hr
    injection hr with hr
    subst hr
    refine ⟨devSlice_length _ _, ?_⟩
    rw [← hN]
    exact devSlice_self env.device

/-- C3 amended witness at a concrete environment and its concrete
result. -/
theorem snapshot_valid_unless_latent_failure_witness :
    (⟨[7], ⟨[], false⟩, .success⟩ : SnapshotResult Nat).varname.length = 1 ∧
    (⟨[7], ⟨[], false⟩, .success⟩ : SnapshotResult Nat).varname = [7] :=
  snapshot_valid_unless_latent_failure ⟨[7], ⟨[], false⟩, true⟩ 1 rfl rfl
    ⟨[7], ⟨[], false⟩, .success⟩ rfl

/-- C4: when `CHECK_DATA` returns normally, nothing previously enqueued on
the stream (nor its own copy) is still pending — the queue is empty — and
an immediately following `cudaStreamSynchronize` on the same stream has
nothing left to wait for: it leaves the host vector and the stream state
exactly as they were. -/
theorem snapshot_drains_stream [Inhabited α] (env : SnapshotEnv α) (n : Nat) :
    ∀ r, CHECK_DATA env n = .ok r →
      r.stream.pending = [] ∧
      (cudaStreamSynchronize env.device r.varname r.stream).1 = r.varname ∧
      (cudaStreamSynchronize env.device r.varname r.stream).2.1 = r.stream :=
  by
  intro r hr
  cases h1 : env.enqueueOk
  · rw [CHECK_DATA_throw env n h1] at hr
    exact absurd hr (by simp)
  · cases h2 : env.stream.failed
    · rw [CHECK_DATA_ok env n h1 h2] at hr
      injection hr with hr
      subst hr
      exact ⟨rfl, rfl, rfl⟩
    · rw [CHECK_DATA_latent_failure env n h1 h2] at hr
      injection hr with hr
      subst hr
      exact ⟨rfl, rfl, rfl⟩

/-- C4 witness at a concrete environment with earlier operations pending
on the stream, and its concrete result. -/
theorem snapshot_drains_stream_witness :
    (⟨[7], ⟨[], false⟩, .success⟩ : SnapshotResult Nat).stream.pending = [] ∧
    (cudaStreamSynchronize [7]
        (⟨[7], ⟨[], false⟩, .success⟩ : SnapshotResult Nat).varname
        (⟨[7], ⟨[], false⟩, .success⟩ : SnapshotResult Nat).stream).1
      = (⟨[7], ⟨[], false⟩, .success⟩ : SnapshotResult Nat).varname ∧
    (cudaStreamSynchronize [7]
        (⟨[7], ⟨[], false⟩, .success⟩ : SnapshotResult Nat).varname
        (⟨[7], ⟨[], false⟩, .success⟩ : SnapshotResult Nat).stream).2.1
      = (⟨[7], ⟨[], false⟩, .success⟩ : SnapshotResult Nat).stream :=
  snapshot_drains_stream ⟨[7], ⟨[.other, .other], false⟩, true⟩ 1
    ⟨[7], ⟨[], false⟩, .success⟩ rfl

/-- C5: with `data_size = 0` and the enqueue accepted, `CHECK_DATA`
returns normally with an empty vector — nothing is copied into it, whatever
the device holds — and the stream has still been synchronized: its queue is
drained when the macro finishes. -/
theorem snapshot_zero_size [Inhabited α] (env : SnapshotEnv α)
    (h1 : env.enqueueOk = true) :
    returnsNormally (CHECK_DATA env 0) = true ∧
    ∀ r, CHECK_DATA env 0 = .ok r →
      r.varname = [] ∧ r.stream.pending = [] := by
  cases h2 : env.stream.failed
  · rw [CHECK_DATA_ok env 0 h1 h2]
    refine ⟨rfl, ?_⟩
    intro r hr
    injection hr with hr
    subst hr
    exact ⟨rfl, rfl⟩
  · rw [CHECK_DATA_latent_failure env 0 h1 h2]
    refine ⟨rfl, ?_⟩
    intro r hr
    injection hr with hr
    subst hr
    exact ⟨rfl, rfl⟩

/-- C5 witness: a nonempty device buffer, an earlier operation pending,
count zero. -/
theorem snapshot_zero_size_witness :
    returnsNormally (CHECK_DATA (⟨[7], ⟨[.other], false⟩, true⟩ :
        SnapshotEnv Nat) 0) = true ∧
    ∀ r, CHECK_DATA (⟨[7], ⟨[.other], false⟩, true⟩ : SnapshotEnv Nat) 0
        = .ok r →
      r.varname = [] ∧ r.stream.pending = [] :=
  snapshot_zero_size ⟨[7], ⟨[.other], false⟩, true⟩ rfl

/-- C9: the first thing `CHECK_DATA` does is declare the host vector,
value-initialized — its contents are `n` copies of the value-initialized
value, fixed before (and independently of) anything the copy later writes —
and the throw on an enqueue failure can only happen strictly after that
declaration has completed. -/
theorem snapshot_alloc_first_then_throw [Inhabited α] (env : SnapshotEnv α)
    (n : Nat) :
    (CHECK_DATA_trace env n).head? =
        some (.allocHost (List.replicate n (default : α))) ∧
    (∀ x ∈ List.replicate n (default : α), x = default) ∧
    (∀ i, (CHECK_DATA_trace env n)[i]? =
        some SnapshotEvent.throwDeviceOperationError → 1 ≤ i) := by
  refine ⟨?_, ?_, ?_⟩
  · cases h : env.enqueueOk <;> simp [CHECK_DATA_trace, h]
  · intro x hx
    exact List.eq_of_mem_replicate hx
  · intro i hi
    match i with
    | 0 =>
      cases h : env.enqueueOk <;>
        simp [CHECK_DATA_trace, h] at hi
    | i + 1 => exact Nat.succ_le_succ (Nat.zero_le i)

/-- C9 witness at a concrete environment where the enqueue fails. -/
theorem snapshot_alloc_first_then_throw_witness :
    (CHECK_DATA_trace (⟨[7], ⟨[], false⟩, false⟩ : SnapshotEnv Nat) 2).head?
        = some (.allocHost (List.replicate 2 (default : Nat))) ∧
    (∀ x ∈ List.replicate 2 (default : Nat), x = default) ∧
    (∀ i, (CHECK_DATA_trace (⟨[7], ⟨[], false⟩, false⟩ :
        SnapshotEnv Nat) 2)[i]? =
        some SnapshotEvent.throwDeviceOperationError → 1 ≤ i) :=
  snapshot_alloc_first_then_throw ⟨[7], ⟨[], false⟩, false⟩ 2

/-- C6: for every field declared with `READWRITE_PROPERTY` (shown for both
read-write fields, over arbitrary field types and defaults): immediately
after construction the getter returns the declared default, and after
`set_name(v)` the getter returns `v`. -/
theorem readwrite_get_default_and_set_get (τa τb τr : Type)
    (da : τa) (db : τb) (dr : τr) (o : PropClass τa τb τr)
    (va : τa) (vb : τb) :
    ((PropClass.construct da db dr).get_a).1 = da ∧
    ((PropClass.construct da db dr).get_b).1 = db ∧
    (((o.set_a va).2).get_a).1 = va ∧
    (((o.set_b vb).2).get_b).1 = vb :=
  ⟨rfl, rfl, rfl, rfl⟩

/-- C7: a generated setter assigns exactly one field — every other field is
untouched — and returns nothing beyond the assignment; a generated getter
leaves the object completely unchanged. -/
theorem set_frame_and_get_no_side_effect (τa τb τr : Type)
    (o : PropClass τa τb τr) (va : τa) (vb : τb) :
    ((o.set_a va).2.b = o.b ∧ (o.set_a va).2.r = o.r ∧ (o.set_a va).1 = ()) ∧
    ((o.set_b vb).2.a = o.a ∧ (o.set_b vb).2.r = o.r ∧ (o.set_b vb).1 = ()) ∧
    (o.get_a).2 = o ∧ (o.get_b).2 = o ∧ (o.get_r).2 = o :=
  ⟨⟨rfl, rfl, rfl⟩, ⟨rfl, rfl, rfl⟩, rfl, rfl, rfl⟩

/-- C8: the public interface exposes no mutator for a `READONLY_PROPERTY`
field (`PublicCall` has no constructor for one), so in every state
reachable from construction through any sequence of public calls,
`get_r()` still returns the declared default. -/
theorem readonly_get_default_in_every_reachable_state (τa τb τr : Type)
    (da : τa) (db : τb) (dr : τr) (cs : List (PublicCall τa τb)) :
    (((PropClass.construct da db dr).runAll cs).get_r).1 = dr := by
  have h : ((PropClass.construct da db dr).runAll cs).r
      = (PropClass.construct da db dr).r :=
    PropClass.runAll_preserves_r _ cs
  exact h

/-- C10: a generated setter overwrites rather than accumulates: two
consecutive sets leave exactly the state of the second alone, a repeated
set with the same argument is idempotent, and `set_name(get_name())`
leaves the object unchanged — for both read-write fields. -/
theorem set_overwrites_last_write_wins (τa τb τr : Type)
    (o : PropClass τa τb τr) (v1 v2 : τa) (w1 w2 : τb) :
    (((o.set_a v1).2).set_a v2).2 = (o.set_a v2).2 ∧
    (((o.set_b w1).2).set_b w2).2 = (o.set_b w2).2 ∧
    (((o.set_a v1).2).set_a v1).2 = (o.set_a v1).2 ∧
    (o.set_a ((o.get_a).1)).2 = o ∧
    (o.set_b ((o.get_b).1)).2 = o :=
  ⟨rfl, rfl, rfl, rfl, rfl⟩

end NRC
